import Mathlib

/-!
Shallow embedding of the Smart Order Routing (SOR) coordination layer of a
decentralized-exchange front-end: the `useSor` composable. The embedding
covers amount parsing/formatting (ethers `parseFixed`/`formatFixed`),
the quote recomputation `handleAmountChange`, the price impact estimator
`calcPriceImpact`, the slippage bounds `getMaxIn`/`getMinOut`, the quote
snapshot `getQuote`, the execution entry point `trade`, and an
interleaving model of the concurrent quote / batch-simulation updates
(`handleAmountChange` racing `updateTradeAmounts`).

Machine integers: all on-chain amounts are arbitrary-precision integers
(`BigNumber`), modelled as `Nat`/`Int`. JavaScript floating-point numbers
appear only in the price-impact comparison logic and are modelled exactly
as rationals.
-/

namespace Sor

/-- Wrap kind of a trade pair (source enum `WrapType` from the wrapper
utility). -/
inductive WrapType where
  | NonWrap
  | Wrap
  | Unwrap
  deriving DecidableEq, Repr

/-- Swap direction passed to the routing engine (source enum `SwapTypes`
of the SDK). -/
inductive SwapTypes where
  | SwapExactIn
  | SwapExactOut
  deriving DecidableEq, Repr

/-- Splits a character list at the first decimal point; part of the model
of ethers `parseFixed` over decimal strings. -/
def splitDot : List Char → List Char × Option (List Char)
  | [] => ([], none)
  | c :: cs =>
    if c = '.' then ([], some cs)
    else
      let p := splitDot cs
      (c :: p.1, p.2)

/-- Value of a digit list, most significant digit first. -/
def digitsToNat (l : List Char) : ℕ :=
  l.foldl (fun acc c => acc * 10 + (c.toNat - 48)) 0

/-- Model of ethers `parseFixed(value, decimals)`: a human decimal string
converted to a fixed-point integer with `decimals` fractional digits. -/
def parseFixed (s : String) (decimals : ℕ) : ℕ :=
  match splitDot s.data with
  | (w, none) => digitsToNat w * 10 ^ decimals
  | (w, some f) =>
    let frac := f.take decimals
    digitsToNat w * 10 ^ decimals + digitsToNat frac * 10 ^ (decimals - frac.length)

/-- Drops trailing `'0'` characters of a fractional digit list. -/
def dropTrailingZeros (l : List Char) : List Char :=
  (l.reverse.dropWhile (fun c => c = '0')).reverse

/-- Model of ethers `formatFixed(value, decimals)`: a fixed-point integer
rendered as a decimal string, trailing fractional zeros removed. -/
def formatFixed (n : ℕ) (decimals : ℕ) : String :=
  let base := 10 ^ decimals
  let whole := n / base
  let frac := n % base
  if frac = 0 then toString whole
  else
    let fracDigits := toString frac
    let padded := List.replicate (decimals - fracDigits.length) '0' ++ fracDigits.data
    toString whole ++ "." ++ String.mk (dropTrailingZeros padded)

/-- ethers `parseUnits`: same fixed-point conversion as `parseFixed`. -/
def parseUnits (s : String) (decimals : ℕ) : ℕ := parseFixed s decimals

/-- ethers `formatUnits`: same rendering as `formatFixed`. -/
def formatUnits (n : ℕ) (decimals : ℕ) : String := formatFixed n decimals

/-- `10^18`, the 18-decimal fixed-point unit (source import `WeiPerEther`,
bound to the name `ONE`). -/
def ONE : ℕ := 10 ^ 18

/-- Source constant `MIN_PRICE_IMPACT = 0.0001`, the displayed price
impact floor for routed swaps. -/
def MIN_PRICE_IMPACT : ℚ := 1 / 10000

/-- Source constant `HIGH_PRICE_IMPACT_THRESHOLD = 0.05`. -/
def HIGH_PRICE_IMPACT_THRESHOLD : ℚ := 1 / 20

/-- `Number(formatUnits(x))`: an 18-decimal fixed-point integer read back
as a number, modelled exactly as a rational. -/
def wadToRat (x : ℤ) : ℚ := (x : ℚ) / 10 ^ 18

/-- `parseUnits(Number(s).toFixed(18))`: a decimal market spot price
rounded to 18 fractional digits and raised to 18-decimal fixed point. -/
def fixed18 (q : ℚ) : ℤ := ⌊q * 10 ^ 18 + 1 / 2⌋

/-- Model of `calcPriceImpact(tokenDecimals, tokenAmount,
tokenAmountScaled, swapReturn)`: effective price of the trade divided by
the route's market spot price, minus one, in 18-decimal fixed point.
`BigNumber.div` truncates toward zero and throws on a zero divisor; the
throw is modelled as `none`. -/
def calcPriceImpact (tokenDecimals : ℕ) (tokenAmount tokenAmountScaled : ℤ)
    (marketSpNormalised : ℚ) : Option ℤ :=
  let divScale : ℤ := 10 ^ tokenDecimals
  let wadScale : ℤ := 10 ^ 18
  if tokenAmount = 0 then none
  else
    let effectivePrice := Int.tdiv (tokenAmountScaled * divScale) tokenAmount
    let sp := fixed18 marketSpNormalised
    if sp = 0 then none
    else some (Int.tdiv (effectivePrice * wadScale) sp - wadScale)

/-- Model of the SDK `SorReturn` result of `getBestSwap`: the fields the
orchestrator reads (route metadata irrelevant to the claims is elided). -/
structure SwapResult where
  hasSwaps : Bool
  returnAmount : ℕ
  marketSpNormalised : ℚ
  deriving DecidableEq, Repr

/-- Orchestrator state read and written by `handleAmountChange`: the two
amount inputs, `priceImpact`, the `sorReturn` fields the claims observe,
and the module-level `state.validationErrors.highPriceImpact` flag. -/
structure SorState where
  tokenInAmountInput : String
  tokenOutAmountInput : String
  priceImpact : ℚ
  hasSwaps : Bool
  returnAmount : ℕ
  marketSpNormalised : ℚ
  highPriceImpact : Bool
  deriving DecidableEq, Repr

/-- External collaborators of `handleAmountChange`, as response
functions: the wrap adapter (`getWrapOutput`), the routing engine
(`SorManager.getBestSwap`), the wrapped-collateral price-impact
adjustment (`adjustedPiAmount`), the display formatter (`formatAmount`,
backed by `fNum2`), and routing-engine pool-data availability
(`sorManager && sorManager.hasPoolData()`). -/
structure Env where
  formatAmount : String → String
  getWrapOutput : String → WrapType → ℕ → ℕ
  getBestSwap : String → String → ℕ → ℕ → SwapTypes → ℕ → SwapResult
  adjustedPiAmount : ℕ → String → ℕ
  hasPoolData : Bool

/-- The amount string of the side the user is editing
(`exactIn ? tokenInAmountInput : tokenOutAmountInput`). -/
def editedAmount (exactIn : Bool) (st : SorState) : String :=
  if exactIn then st.tokenInAmountInput else st.tokenOutAmountInput

/-- Decimals of the edited token (token in for exact-in). -/
def editedDecimals (exactIn : Bool) (tokenInDecimals tokenOutDecimals : ℕ) : ℕ :=
  if exactIn then tokenInDecimals else tokenOutDecimals

/-- Decimals of the derived token (token out for exact-in). -/
def derivedDecimals (exactIn : Bool) (tokenInDecimals tokenOutDecimals : ℕ) : ℕ :=
  if exactIn then tokenOutDecimals else tokenInDecimals

/-- Model of `resetInputAmounts(amount)`: both displayed amounts are set
to the given string, price impact to 0, and the held route is cleared. -/
def resetInputAmounts (amount : String) (st : SorState) : SorState :=
  { st with
    tokenInAmountInput := amount
    tokenOutAmountInput := amount
    priceImpact := 0
    hasSwaps := false
    returnAmount := 0 }

/-- The early returns that blank only the derived-side amount (missing
token address, or pool data not yet available). -/
def clearDerived (exactIn : Bool) (st : SorState) : SorState :=
  if exactIn then { st with tokenOutAmountInput := "" }
  else { st with tokenInAmountInput := "" }

/-- The wrapper contract address used by the wrap branch:
`wrapType === Wrap ? tokenOutAddress : tokenInAddress`. -/
def wrapperOf (wrapType : WrapType) (tokenInAddress tokenOutAddress : String) : String :=
  if wrapType = WrapType.Wrap then tokenOutAddress else tokenInAddress

/-- The wrap/unwrap branch of `handleAmountChange`: the paired amount is
derived through the wrap adapter `getWrapOutput` (with the direction
flipped when the user edits the output side), `sorReturn.hasSwaps` is
cleared and the price impact is forced to 0. -/
def wrapQuote (env : Env) (exactIn : Bool) (tokenInAddress tokenOutAddress : String)
    (wrapType : WrapType) (tokenInDecimals tokenOutDecimals : ℕ)
    (amount : String) (st : SorState) : SorState :=
  let wrapper := wrapperOf wrapType tokenInAddress tokenOutAddress
  let st1 :=
    if exactIn then
      let outputAmount := env.getWrapOutput wrapper wrapType (parseFixed amount tokenInDecimals)
      { st with
        tokenInAmountInput := amount
        tokenOutAmountInput := formatFixed outputAmount tokenInDecimals }
    else
      let inputAmount := env.getWrapOutput wrapper
        (if wrapType = WrapType.Wrap then WrapType.Unwrap else WrapType.Wrap)
        (parseFixed amount tokenOutDecimals)
      { st with
        tokenOutAmountInput := amount
        tokenInAmountInput := formatFixed inputAmount tokenOutDecimals }
  { st1 with hasSwaps := false, priceImpact := 0 }

/-- The routing-engine query issued by the routed branch of
`handleAmountChange` (`sorManager.getBestSwap` at the scaled edited
amount). -/
def bestSwapOf (env : Env) (exactIn : Bool) (tokenInAddress tokenOutAddress : String)
    (tokenInDecimals tokenOutDecimals : ℕ) (st : SorState) : SwapResult :=
  env.getBestSwap tokenInAddress tokenOutAddress tokenInDecimals tokenOutDecimals
    (if exactIn then SwapTypes.SwapExactIn else SwapTypes.SwapExactOut)
    (parseUnits (editedAmount exactIn st) (editedDecimals exactIn tokenInDecimals tokenOutDecimals))

/-- The raw (pre-floor) price impact computed by the routed branch: the
return amount is first passed through `adjustedPiAmount` (against the
token-out address, as in both source branches), then `calcPriceImpact`
is applied at the derived token's decimals. -/
def rawImpactOf (env : Env) (exactIn : Bool) (tokenInAddress tokenOutAddress : String)
    (tokenInDecimals tokenOutDecimals : ℕ) (st : SorState) : Option ℤ :=
  let swapReturn := bestSwapOf env exactIn tokenInAddress tokenOutAddress tokenInDecimals tokenOutDecimals st
  calcPriceImpact (derivedDecimals exactIn tokenInDecimals tokenOutDecimals)
    (Int.ofNat (env.adjustedPiAmount swapReturn.returnAmount tokenOutAddress))
    (Int.ofNat (parseUnits (editedAmount exactIn st) (editedDecimals exactIn tokenInDecimals tokenOutDecimals)))
    swapReturn.marketSpNormalised

/-- The routed (non-wrap) branch of `handleAmountChange`: query the
routing engine, store the result in `sorReturn`, display the derived
amount (blank when the return amount is 0), and either zero the price
impact (no route) or clamp the computed impact to the floor; finally set
the high-price-impact validation flag from the threshold comparison.
The second component counts `getBestSwap` invocations; `none` models an
uncaught `BigNumber` division-by-zero throw inside `calcPriceImpact`. -/
def routedQuote (env : Env) (exactIn : Bool) (tokenInAddress tokenOutAddress : String)
    (tokenInDecimals tokenOutDecimals : ℕ) (st : SorState) : Option (SorState × ℕ) :=
  let swapReturn := bestSwapOf env exactIn tokenInAddress tokenOutAddress tokenInDecimals tokenOutDecimals st
  let display :=
    if 0 < swapReturn.returnAmount then
      env.formatAmount (formatUnits swapReturn.returnAmount (derivedDecimals exactIn tokenInDecimals tokenOutDecimals))
    else ""
  let st1 : SorState :=
    { st with
      hasSwaps := swapReturn.hasSwaps
      returnAmount := swapReturn.returnAmount
      marketSpNormalised := swapReturn.marketSpNormalised
      tokenInAmountInput := if exactIn then st.tokenInAmountInput else display
      tokenOutAmountInput := if exactIn then display else st.tokenOutAmountInput }
  if swapReturn.hasSwaps = false then
    some ({ st1 with
            priceImpact := 0
            highPriceImpact := decide (HIGH_PRICE_IMPACT_THRESHOLD ≤ (0 : ℚ)) }, 1)
  else
    match rawImpactOf env exactIn tokenInAddress tokenOutAddress tokenInDecimals tokenOutDecimals st with
    | none => none
    | some pic =>
      let pi := max (wadToRat pic) MIN_PRICE_IMPACT
      some ({ st1 with
              priceImpact := pi
              highPriceImpact := decide (HIGH_PRICE_IMPACT_THRESHOLD ≤ pi) }, 1)

/-- Model of `handleAmountChange()`: the quote recomputation triggered on
every amount/token/direction change. Returns the new orchestrator state
and the number of routing-engine (`getBestSwap`) invocations; `none`
models an uncaught throw. Branches in source order: zero-value
short-circuit, missing address, wrap/unwrap bypass, missing pool data,
routed quote. -/
def handleAmountChange (env : Env) (exactIn : Bool)
    (tokenInAddress tokenOutAddress : String) (wrapType : WrapType)
    (tokenInDecimals tokenOutDecimals : ℕ) (st : SorState) : Option (SorState × ℕ) :=
  let amount := editedAmount exactIn st
  if amount = "" ∨ amount = "0" then
    some (resetInputAmounts amount st, 0)
  else if tokenInAddress = "" ∨ tokenOutAddress = "" then
    some (clearDerived exactIn st, 0)
  else if wrapType ≠ WrapType.NonWrap then
    some (wrapQuote env exactIn tokenInAddress tokenOutAddress wrapType tokenInDecimals tokenOutDecimals amount st, 0)
  else if env.hasPoolData = false then
    some (clearDerived exactIn st, 0)
  else
    routedQuote env exactIn tokenInAddress tokenOutAddress tokenInDecimals tokenOutDecimals st

/-- `parseFixed(String(1 + slippageBufferRate), 18)`: one plus the
slippage buffer rate scaled to 18 decimals. The rate is a JavaScript
number whose decimal rendering has at most 18 fractional digits, so the
scaling is exact and modelled on rationals. -/
def onePlusRateScaled (slippageBufferRate : ℚ) : ℕ :=
  (⌊((1 + slippageBufferRate) * 10 ^ 18 : ℚ)⌋).toNat

/-- `getMaxIn(amount)`: worst-case input limit for an exact-out swap,
`amount * parseFixed(String(1 + slippageBufferRate), 18) / ONE` with
`BigNumber` floor division. -/
def getMaxIn (amount : ℕ) (slippageBufferRate : ℚ) : ℕ :=
  amount * onePlusRateScaled slippageBufferRate / ONE

/-- `getMinOut(amount)`: worst-case output limit for an exact-in swap,
`amount * ONE / parseFixed(String(1 + slippageBufferRate), 18)` with
`BigNumber` floor division. -/
def getMinOut (amount : ℕ) (slippageBufferRate : ℚ) : ℕ :=
  amount * ONE / onePlusRateScaled slippageBufferRate

/-- Model of the `TradeQuote` record frozen onto a submitted transaction
(`feeAmountInToken`/`feeAmountOutToken` are decimal strings in source). -/
structure TradeQuote where
  feeAmountInToken : String
  feeAmountOutToken : String
  maximumInAmount : ℕ
  minimumOutAmount : ℕ
  deriving DecidableEq, Repr

/-- Model of `getQuote()`: the optional `tokenInAmountScaled` /
`tokenOutAmountScaled` props are `none` when not supplied at
construction, in which case the corresponding limit is `Zero`. -/
def getQuote (tokenInAmountScaled tokenOutAmountScaled : Option ℕ)
    (slippageBufferRate : ℚ) : TradeQuote :=
  let maximumInAmount :=
    match tokenInAmountScaled with
    | some a => getMaxIn a slippageBufferRate
    | none => 0
  let minimumOutAmount :=
    match tokenOutAmountScaled with
    | some a => getMinOut a slippageBufferRate
    | none => 0
  { feeAmountInToken := "0"
    feeAmountOutToken := "0"
    maximumInAmount := maximumInAmount
    minimumOutAmount := minimumOutAmount }

/-- Execution flags and the user-visible submission error owned by the
orchestrator (`trading`, `confirming`, `state.submissionError`). -/
structure TradeState where
  trading : Bool
  confirming : Bool
  submissionError : Option String
  deriving DecidableEq, Repr

/-- The four submission collaborators of `trade()` (wrap, unwrap,
`swapIn`, `swapOut`), each returning a transaction id or throwing an
error message. -/
structure TradeEnv where
  wrapSubmit : ℕ → Except String ℕ
  unwrapSubmit : ℕ → Except String ℕ
  swapInSubmit : ℕ → ℕ → Except String ℕ
  swapOutSubmit : ℕ → ℕ → Except String ℕ

/-- Which submission `trade()` performs and with which arguments:
wrap/unwrap at the scaled input amount, `swapIn(sr, tokenInAmountScaled,
getMinOut(tokenOutAmount))` for exact-in, `swapOut(sr,
getMaxIn(tokenInAmountScaled), tokenOutAmountScaled)` for exact-out. -/
def tradeOutcome (env : TradeEnv) (wrapType : WrapType) (exactIn : Bool)
    (tokenInAmountScaled tokenOutAmountScaled : ℕ)
    (slippageBufferRate : ℚ) : Except String ℕ :=
  match wrapType with
  | WrapType.Wrap => env.wrapSubmit tokenInAmountScaled
  | WrapType.Unwrap => env.unwrapSubmit tokenInAmountScaled
  | WrapType.NonWrap =>
    if exactIn then
      env.swapInSubmit tokenInAmountScaled (getMinOut tokenOutAmountScaled slippageBufferRate)
    else
      env.swapOutSubmit (getMaxIn tokenInAmountScaled slippageBufferRate) tokenOutAmountScaled

/-- Shared shape of the four identical catch blocks of `trade()` and of
the success path through `txHandler`: each branch performs exactly one
submission; on a throw the error message is stored in
`state.submissionError` and `trading`/`confirming` are reset to idle; on
success `txHandler` clears `confirming` while `trading` stays set until
the confirmation listener fires. The second component counts submission
attempts. -/
def applyOutcome : Except String ℕ → TradeState × ℕ
  | Except.error msg => ({ trading := false, confirming := false, submissionError := some msg }, 1)
  | Except.ok _ => ({ trading := true, confirming := false, submissionError := none }, 1)

/-- Model of `trade()`: flags are raised, the branch-appropriate
submission is performed once, and its outcome is applied. -/
def trade (env : TradeEnv) (wrapType : WrapType) (exactIn : Bool)
    (tokenInAmountScaled tokenOutAmountScaled : ℕ)
    (slippageBufferRate : ℚ) : TradeState × ℕ :=
  applyOutcome (tradeOutcome env wrapType exactIn tokenInAmountScaled tokenOutAmountScaled slippageBufferRate)

/-- State of the interleaving model for the quote /
batch-simulation races: the identity of the route result object held in
`sorReturn.value.result` (object identities as natural numbers), the
derived-side displayed amount, the flags guarding `updateTradeAmounts`,
and the captured route identity of each in-flight batch simulation. -/
structure RaceState where
  currentResultId : ℕ
  displayed : ℕ
  hasSwaps : Bool
  confirming : Bool
  pendingBatch : ℕ → Option ℕ

/-- Responses of the asynchronous collaborators in the race model: each
quote computation (a `handleAmountChange` routed call) yields a fresh
route result object (its identity) and a derived-side amount; each
batch simulation (`queryBatchSwap` in `updateTradeAmounts`) yields a
refined derived-side amount. -/
structure RaceEnv where
  quoteResult : ℕ → ℕ × ℕ
  batchDelta : ℕ → ℕ

/-- Asynchronous boundary events of the race model. A quote computation
suspends at `getBestSwap`: its start performs no observable write and
its resolution writes `sorReturn` and the displayed amount
unconditionally (source lines 348-353 / 392-397). A batch simulation
captures `sorReturn.value.result` at start and, at resolution, applies
its delta only when that captured object is still identical to the
current one (source lines 196-212). -/
inductive RaceEvent where
  | quoteStart (qid : ℕ)
  | quoteResolve (qid : ℕ)
  | batchStart (bid : ℕ)
  | batchResolve (bid : ℕ)

/-- One step of the race model. -/
def raceStep (env : RaceEnv) (s : RaceState) : RaceEvent → RaceState
  | RaceEvent.quoteStart _ => s
  | RaceEvent.quoteResolve qid =>
    { s with
      currentResultId := (env.quoteResult qid).1
      displayed := (env.quoteResult qid).2
      hasSwaps := true }
  | RaceEvent.batchStart bid =>
    if s.hasSwaps ∧ s.confirming = false then
      { s with pendingBatch := fun b => if b = bid then some s.currentResultId else s.pendingBatch b }
    else s
  | RaceEvent.batchResolve bid =>
    match s.pendingBatch bid with
    | none => s
    | some captured =>
      if captured = s.currentResultId then { s with displayed := env.batchDelta bid }
      else s

/-- Runs a sequence of race events. -/
def raceRun (env : RaceEnv) (s : RaceState) : List RaceEvent → RaceState
  | [] => s
  | e :: es => raceRun env (raceStep env s e) es

/-- A concrete collaborator environment used to instantiate theorems:
identity display formatting, a rate-one wrap adapter, a routing engine
answering every query with a route returning the queried amount at spot
price one, no wrapped-collateral adjustment, pool data available. -/
def sampleEnv : Env :=
  { formatAmount := fun s => s
    getWrapOutput := fun _ _ a => a
    getBestSwap := fun _ _ _ _ _ a =>
      { hasSwaps := true, returnAmount := a, marketSpNormalised := 1 }
    adjustedPiAmount := fun a _ => a
    hasPoolData := true }

/-- A concrete orchestrator state: the user typed `1` on the input side. -/
def sampleSt : SorState :=
  { tokenInAmountInput := "1"
    tokenOutAmountInput := ""
    priceImpact := 0
    hasSwaps := false
    returnAmount := 0
    marketSpNormalised := 0
    highPriceImpact := false }

/-- `sampleSt` with the edited amount set to the literal `"0"`. -/
def zeroSt : SorState :=
  { sampleSt with tokenInAmountInput := "0" }

/-- The state produced by the routed branch on `sampleEnv`/`sampleSt`:
a route for the full amount at spot price one, so the raw impact is 0
and the displayed impact is the floor. -/
def sampleQuoted : SorState :=
  { tokenInAmountInput := "1"
    tokenOutAmountInput := "1"
    priceImpact := 1 / 10000
    hasSwaps := true
    returnAmount := 10 ^ 18
    marketSpNormalised := 1
    highPriceImpact := false }

/-- `sampleEnv` with a routing engine that finds no route. -/
def noRouteEnv : Env :=
  { sampleEnv with
    getBestSwap := fun _ _ _ _ _ _ =>
      { hasSwaps := false, returnAmount := 0, marketSpNormalised := 0 } }

/-- The state produced by the routed branch on `noRouteEnv`/`sampleSt`:
no route, so the derived amount is blanked and the impact is exactly 0. -/
def noRouteQuoted : SorState :=
  { tokenInAmountInput := "1"
    tokenOutAmountInput := ""
    priceImpact := 0
    hasSwaps := false
    returnAmount := 0
    marketSpNormalised := 0
    highPriceImpact := false }

/-- A state in which an earlier routed quote left a high price impact
and the validation flag set. -/
def staleFlagSt : SorState :=
  { tokenInAmountInput := "1"
    tokenOutAmountInput := ""
    priceImpact := 6 / 100
    hasSwaps := true
    returnAmount := 5
    marketSpNormalised := 1
    highPriceImpact := true }

/-- The state `handleAmountChange` produces from `staleFlagSt` on a wrap
pair: price impact zeroed but the high-impact flag left set (the wrap
branch returns before the flag update line). -/
def staleFlagWrapped : SorState :=
  { tokenInAmountInput := "1"
    tokenOutAmountInput := "1"
    priceImpact := 0
    hasSwaps := false
    returnAmount := 5
    marketSpNormalised := 1
    highPriceImpact := true }

/-- Submission collaborators that all throw with message `"rejected"`. -/
def failTradeEnv : TradeEnv :=
  { wrapSubmit := fun _ => Except.error "rejected"
    unwrapSubmit := fun _ => Except.error "rejected"
    swapInSubmit := fun _ _ => Except.error "rejected"
    swapOutSubmit := fun _ _ => Except.error "rejected" }

/-- Race environment with two quote computations: quote 0 yields route
object 10 displaying 1, quote 1 yields route object 20 displaying 2. -/
def raceCexEnv : RaceEnv :=
  { quoteResult := fun qid => if qid = 0 then (10, 1) else (20, 2)
    batchDelta := fun _ => 0 }

/-- Initial race state: no route yet, not confirming, nothing in
flight. -/
def raceInit : RaceState :=
  { currentResultId := 0
    displayed := 0
    hasSwaps := false
    confirming := false
    pendingBatch := fun _ => none }

/-- `raceInit` holding the route object of a resolved quote (identity 3,
displayed amount 7). -/
def raceQuotedSt : RaceState :=
  { currentResultId := 3
    displayed := 7
    hasSwaps := true
    confirming := false
    pendingBatch := fun _ => none }

/-- Reduction of `handleAmountChange` on the zero-value branch. -/
theorem handle_zero_branch (env : Env) (exactIn : Bool) (tin tout : String)
    (wt : WrapType) (din dout : ℕ) (st : SorState)
    (h : editedAmount exactIn st = "" ∨ editedAmount exactIn st = "0") :
    handleAmountChange env exactIn tin tout wt din dout st
      = some (resetInputAmounts (editedAmount exactIn st) st, 0) := by
  simp only [handleAmountChange]
  rw [if_pos h]

/-- Reduction of `handleAmountChange` on the wrap/unwrap branch. -/
theorem handle_wrap_branch (env : Env) (exactIn : Bool) (tin tout : String)
    (wt : WrapType) (din dout : ℕ) (st : SorState)
    (ha : ¬(editedAmount exactIn st = "" ∨ editedAmount exactIn st = "0"))
    (hin : tin ≠ "") (hout : tout ≠ "") (hwt : wt ≠ WrapType.NonWrap) :
    handleAmountChange env exactIn tin tout wt din dout st
      = some (wrapQuote env exactIn tin tout wt din dout (editedAmount exactIn st) st, 0) := by
  simp only [handleAmountChange]
  rw [if_neg ha, if_neg (by simp [hin, hout]), if_pos hwt]

/-- Reduction of `handleAmountChange` on the routed branch. -/
theorem handle_routed_branch (env : Env) (exactIn : Bool) (tin tout : String)
    (din dout : ℕ) (st : SorState)
    (ha : ¬(editedAmount exactIn st = "" ∨ editedAmount exactIn st = "0"))
    (hin : tin ≠ "") (hout : tout ≠ "") (hpd : env.hasPoolData = true) :
    handleAmountChange env exactIn tin tout WrapType.NonWrap din dout st
      = routedQuote env exactIn tin tout din dout st := by
  simp only [handleAmountChange]
  rw [if_neg ha, if_neg (by simp [hin, hout]), if_neg (by simp), if_neg (by simp [hpd])]

/-- Claim C3: when the edited-side amount is `""` or the literal `"0"`,
`handleAmountChange` sets both displayed amounts to that value, price
impact to 0, clears the route (`hasSwaps = false`, `returnAmount = 0`)
and returns with zero routing-engine invocations. -/
theorem zero_amount_short_circuit (env : Env) (exactIn : Bool)
    (tin tout : String) (wt : WrapType) (din dout : ℕ) (st : SorState)
    (h : editedAmount exactIn st = "" ∨ editedAmount exactIn st = "0") :
    handleAmountChange env exactIn tin tout wt din dout st
      = some (resetInputAmounts (editedAmount exactIn st) st, 0) ∧
    (resetInputAmounts (editedAmount exactIn st) st).tokenInAmountInput
      = editedAmount exactIn st ∧
    (resetInputAmounts (editedAmount exactIn st) st).tokenOutAmountInput
      = editedAmount exactIn st ∧
    (resetInputAmounts (editedAmount exactIn st) st).priceImpact = 0 ∧
    (resetInputAmounts (editedAmount exactIn st) st).hasSwaps = false ∧
    (resetInputAmounts (editedAmount exactIn st) st).returnAmount = 0 :=
  ⟨handle_zero_branch env exactIn tin tout wt din dout st h, rfl, rfl, rfl, rfl, rfl⟩

/-- Witness for C3 at a concrete input: the edited amount is the literal
`"0"` and the fully evaluated result state follows. -/
theorem zero_amount_short_circuit_witness :
    (editedAmount true zeroSt = "" ∨ editedAmount true zeroSt = "0") ∧
    handleAmountChange sampleEnv true "a" "b" WrapType.NonWrap 18 18 zeroSt
      = some ({ tokenInAmountInput := "0", tokenOutAmountInput := "0",
                priceImpact := 0, hasSwaps := false, returnAmount := 0,
                marketSpNormalised := 0, highPriceImpact := false }, 0) := by
  refine ⟨by decide, ?_⟩
  have h := (zero_amount_short_circuit sampleEnv true "a" "b" WrapType.NonWrap 18 18 zeroSt
    (by decide)).1
  rw [h]
  rfl

/-- Claim C2: for a wrap or unwrap pair (both token addresses present)
and a non-empty, non-zero edited amount, `handleAmountChange` performs
zero routing-engine invocations, derives the paired amount through the
wrap adapter `getWrapOutput`, clears `hasSwaps` and forces the price
impact to exactly 0. -/
theorem wrap_pair_bypasses_routing_engine (env : Env) (exactIn : Bool)
    (tin tout : String) (wt : WrapType) (din dout : ℕ) (st : SorState)
    (hwt : wt ≠ WrapType.NonWrap) (hin : tin ≠ "") (hout : tout ≠ "")
    (ha : ¬(editedAmount exactIn st = "" ∨ editedAmount exactIn st = "0")) :
    handleAmountChange env exactIn tin tout wt din dout st
      = some (wrapQuote env exactIn tin tout wt din dout (editedAmount exactIn st) st, 0) ∧
    (wrapQuote env exactIn tin tout wt din dout (editedAmount exactIn st) st).hasSwaps
      = false ∧
    (wrapQuote env exactIn tin tout wt din dout (editedAmount exactIn st) st).priceImpact
      = 0 ∧
    (if exactIn then
      (wrapQuote env exactIn tin tout wt din dout (editedAmount exactIn st) st).tokenOutAmountInput
        = formatFixed
            (env.getWrapOutput (wrapperOf wt tin tout) wt
              (parseFixed (editedAmount exactIn st) din)) din
    else
      (wrapQuote env exactIn tin tout wt din dout (editedAmount exactIn st) st).tokenInAmountInput
        = formatFixed
            (env.getWrapOutput (wrapperOf wt tin tout)
              (if wt = WrapType.Wrap then WrapType.Unwrap else WrapType.Wrap)
              (parseFixed (editedAmount exactIn st) dout)) dout) := by
  refine ⟨handle_wrap_branch env exactIn tin tout wt din dout st ha hin hout hwt, rfl, rfl, ?_⟩
  cases exactIn <;> simp [wrapQuote]

/-- Witness for C2 at a concrete input: wrapping 1 token (18 decimals)
through a rate-one wrap adapter displays 1 on the paired side with no
route and zero impact. -/
theorem wrap_pair_bypasses_routing_engine_witness :
    handleAmountChange sampleEnv true "a" "b" WrapType.Wrap 18 18 sampleSt
      = some ({ tokenInAmountInput := "1", tokenOutAmountInput := "1",
                priceImpact := 0, hasSwaps := false, returnAmount := 0,
                marketSpNormalised := 0, highPriceImpact := false }, 0) := by
  have h := (wrap_pair_bypasses_routing_engine sampleEnv true "a" "b" WrapType.Wrap 18 18
    sampleSt (by decide) (by decide) (by decide) (by decide)).1
  rw [h]
  have hp : parseFixed "1" 18 = 1000000000000000000 := by decide
  have hf : formatFixed 1000000000000000000 18 = "1" := by decide
  norm_num [wrapQuote, wrapperOf, sampleEnv, sampleSt, editedAmount, hp, hf]

/-- Concrete evaluation of the routed branch on `sampleEnv`/`sampleSt`:
one routing-engine call, raw impact 0, displayed impact clamped to the
floor. -/
theorem sample_routed_eval :
    handleAmountChange sampleEnv true "a" "b" WrapType.NonWrap 18 18 sampleSt
      = some (sampleQuoted, 1) := by
  have h1 : ("1" = "" ∨ "1" = "0") = False := eq_false (by decide)
  have h2 : ("a" = "" ∨ "b" = "") = False := eq_false (by decide)
  have hp : parseFixed "1" 18 = 1000000000000000000 := by decide
  have hf : formatFixed 1000000000000000000 18 = "1" := by decide
  have ht : Int.tdiv 1000000000000000000000000000000000000 1000000000000000000
      = 1000000000000000000 := by decide
  norm_num [handleAmountChange, editedAmount, sampleSt, sampleEnv, routedQuote, bestSwapOf,
    rawImpactOf, calcPriceImpact, parseUnits, formatUnits, derivedDecimals, editedDecimals,
    wadToRat, MIN_PRICE_IMPACT, HIGH_PRICE_IMPACT_THRESHOLD, fixed18, sampleQuoted,
    h1, h2, hp, hf, ht]

/-- Concrete evaluation of the routed branch on `noRouteEnv`/`sampleSt`:
the routing engine reports no route, so the impact is exactly 0. -/
theorem sample_no_route_eval :
    handleAmountChange noRouteEnv true "a" "b" WrapType.NonWrap 18 18 sampleSt
      = some (noRouteQuoted, 1) := by
  have h1 : ("1" = "" ∨ "1" = "0") = False := eq_false (by decide)
  have h2 : ("a" = "" ∨ "b" = "") = False := eq_false (by decide)
  norm_num [handleAmountChange, editedAmount, sampleSt, sampleEnv, noRouteEnv, routedQuote,
    bestSwapOf, rawImpactOf, calcPriceImpact, parseUnits, formatUnits, derivedDecimals,
    editedDecimals, HIGH_PRICE_IMPACT_THRESHOLD, noRouteQuoted, h1, h2]

/-- Claim C4 counterexample: a wrap-pair recomputation from a state whose
flag was set by an earlier high-impact routed quote leaves the flag set
while the resulting price impact is 0, which is below the threshold —
the wrap branch returns before the flag-update statement runs. -/
theorem high_impact_flag_stale_after_wrap_recompute :
    handleAmountChange sampleEnv true "a" "b" WrapType.Wrap 18 18 staleFlagSt
      = some (staleFlagWrapped, 0) ∧
    staleFlagWrapped.highPriceImpact = true ∧
    staleFlagWrapped.priceImpact < HIGH_PRICE_IMPACT_THRESHOLD := by
  refine ⟨?_, rfl, by norm_num [staleFlagWrapped, HIGH_PRICE_IMPACT_THRESHOLD]⟩
  have h1 : ("1" = "" ∨ "1" = "0") = False := eq_false (by decide)
  have h2 : ("a" = "" ∨ "b" = "") = False := eq_false (by decide)
  have hp : parseFixed "1" 18 = 1000000000000000000 := by decide
  have hf : formatFixed 1000000000000000000 18 = "1" := by decide
  norm_num [handleAmountChange, editedAmount, staleFlagSt, sampleEnv, wrapQuote, wrapperOf,
    parseUnits, staleFlagWrapped, h1, h2, hp, hf]
  exact fun h => WrapType.noConfusion h

/-- Claim C4 (amended to the recomputations that reach the flag-update
statement): after every routed-swap quote recomputation (non-zero
amount, both addresses present, non-wrap pair, pool data available) the
high-price-impact validation flag is set iff the resulting price impact
is at or above the 0.05 threshold, inclusive at the boundary. -/
theorem high_impact_flag_iff_threshold_on_routed (env : Env) (exactIn : Bool)
    (tin tout : String) (din dout : ℕ) (st st' : SorState) (n : ℕ)
    (ha : ¬(editedAmount exactIn st = "" ∨ editedAmount exactIn st = "0"))
    (hin : tin ≠ "") (hout : tout ≠ "") (hpd : env.hasPoolData = true)
    (hres : handleAmountChange env exactIn tin tout WrapType.NonWrap din dout st
      = some (st', n)) :
    st'.highPriceImpact = true ↔ HIGH_PRICE_IMPACT_THRESHOLD ≤ st'.priceImpact := by
  rw [handle_routed_branch env exactIn tin tout din dout st ha hin hout hpd] at hres
  simp only [routedQuote] at hres
  split at hres
  · simp only [Option.some.injEq, Prod.mk.injEq] at hres
    obtain ⟨hst, -⟩ := hres
    subst hst
    simp
  · split at hres
    · exact absurd hres (by simp)
    · simp only [Option.some.injEq, Prod.mk.injEq] at hres
      obtain ⟨hst, -⟩ := hres
      subst hst
      simp

/-- Witness for the amended C4 at a concrete routed recomputation: the
resulting impact is the floor value, below the threshold, and the flag
is accordingly clear. -/
theorem high_impact_flag_iff_threshold_on_routed_witness :
    sampleQuoted.highPriceImpact = true
      ↔ HIGH_PRICE_IMPACT_THRESHOLD ≤ sampleQuoted.priceImpact :=
  high_impact_flag_iff_threshold_on_routed sampleEnv true "a" "b" 18 18 sampleSt
    sampleQuoted 1 (by decide) (by decide) (by decide) rfl sample_routed_eval

/-- Claim C5: on a routed-swap quote that has a route, the reported
price impact is the maximum of the computed raw impact and the
`MIN_PRICE_IMPACT` floor; in particular whenever the raw impact is below
the floor (including negative values) the reported impact is exactly the
floor, and the reported impact is never below the floor. -/
theorem routed_impact_clamped_to_floor (env : Env) (exactIn : Bool)
    (tin tout : String) (din dout : ℕ) (st st' : SorState) (n : ℕ)
    (ha : ¬(editedAmount exactIn st = "" ∨ editedAmount exactIn st = "0"))
    (hin : tin ≠ "") (hout : tout ≠ "") (hpd : env.hasPoolData = true)
    (hres : handleAmountChange env exactIn tin tout WrapType.NonWrap din dout st
      = some (st', n))
    (hs : st'.hasSwaps = true) :
    ∃ pic : ℤ,
      rawImpactOf env exactIn tin tout din dout st = some pic ∧
      st'.priceImpact = max (wadToRat pic) MIN_PRICE_IMPACT ∧
      (wadToRat pic < MIN_PRICE_IMPACT → st'.priceImpact = MIN_PRICE_IMPACT) ∧
      MIN_PRICE_IMPACT ≤ st'.priceImpact := by
  rw [handle_routed_branch env exactIn tin tout din dout st ha hin hout hpd] at hres
  simp only [routedQuote] at hres
  split at hres
  · rename_i hnoswap
    simp only [Option.some.injEq, Prod.mk.injEq] at hres
    obtain ⟨hst, -⟩ := hres
    subst hst
    simp only [hnoswap] at hs
    exact absurd hs (by simp)
  · split at hres
    · exact absurd hres (by simp)
    · rename_i pic hpic
      simp only [Option.some.injEq, Prod.mk.injEq] at hres
      obtain ⟨hst, -⟩ := hres
      subst hst
      refine ⟨pic, hpic, rfl, fun hlt => ?_, le_max_right _ _⟩
      simpa using max_eq_right hlt.le

/-- Witness for C5 at a concrete routed quote: the raw impact is 0,
below the floor, and the reported impact is exactly the floor. -/
theorem routed_impact_clamped_to_floor_witness :
    ∃ pic : ℤ,
      rawImpactOf sampleEnv true "a" "b" 18 18 sampleSt = some pic ∧
      sampleQuoted.priceImpact = max (wadToRat pic) MIN_PRICE_IMPACT ∧
      (wadToRat pic < MIN_PRICE_IMPACT → sampleQuoted.priceImpact = MIN_PRICE_IMPACT) ∧
      MIN_PRICE_IMPACT ≤ sampleQuoted.priceImpact :=
  routed_impact_clamped_to_floor sampleEnv true "a" "b" 18 18 sampleSt
    sampleQuoted 1 (by decide) (by decide) (by decide) rfl sample_routed_eval rfl

/-- Claim C6: on a routed-swap quote for which the routing engine
reports no route, the reported price impact is exactly 0, not the
`MIN_PRICE_IMPACT` floor. -/
theorem no_route_impact_exactly_zero (env : Env) (exactIn : Bool)
    (tin tout : String) (din dout : ℕ) (st st' : SorState) (n : ℕ)
    (ha : ¬(editedAmount exactIn st = "" ∨ editedAmount exactIn st = "0"))
    (hin : tin ≠ "") (hout : tout ≠ "") (hpd : env.hasPoolData = true)
    (hres : handleAmountChange env exactIn tin tout WrapType.NonWrap din dout st
      = some (st', n))
    (hs : st'.hasSwaps = false) :
    st'.priceImpact = 0 ∧ st'.priceImpact ≠ MIN_PRICE_IMPACT := by
  rw [handle_routed_branch env exactIn tin tout din dout st ha hin hout hpd] at hres
  simp only [routedQuote] at hres
  split at hres
  · simp only [Option.some.injEq, Prod.mk.injEq] at hres
    obtain ⟨hst, -⟩ := hres
    subst hst
    exact ⟨rfl, by norm_num [MIN_PRICE_IMPACT]⟩
  · rename_i hswap
    split at hres
    · exact absurd hres (by simp)
    · simp only [Option.some.injEq, Prod.mk.injEq] at hres
      obtain ⟨hst, -⟩ := hres
      subst hst
      simp only [eq_false_of_ne_true] at hs
      exact absurd hs (by simpa using hswap)

/-- Witness for C6 at a concrete no-route quote: the reported impact is
0 and differs from the floor. -/
theorem no_route_impact_exactly_zero_witness :
    noRouteQuoted.priceImpact = 0 ∧ noRouteQuoted.priceImpact ≠ MIN_PRICE_IMPACT :=
  no_route_impact_exactly_zero noRouteEnv true "a" "b" 18 18 sampleSt
    noRouteQuoted 1 (by decide) (by decide) (by decide) rfl sample_no_route_eval rfl

/-- Claim C1 counterexample: quote computation A (id 0) starts, quote
computation B (id 1) starts after it, B resolves, then A resolves last.
The displayed derived-side amount ends as A's result and differs from
B's: the routed branch of `handleAmountChange` writes its `getBestSwap`
result unconditionally on resolution, with no identity comparison
against the orchestrator's current route, so the older quote overwrites
the newer one. -/
theorem stale_quote_overwrites_newer_result :
    (raceRun raceCexEnv raceInit
        [RaceEvent.quoteStart 0, RaceEvent.quoteStart 1,
         RaceEvent.quoteResolve 1, RaceEvent.quoteResolve 0]).displayed
      = (raceCexEnv.quoteResult 0).2 ∧
    (raceCexEnv.quoteResult 0).2 ≠ (raceCexEnv.quoteResult 1).2 :=
  ⟨rfl, by decide⟩

/-- Claim C1 (amended to the guard the code actually has): only
batch-simulation refinements are guarded. A batch simulation that
captured the current route object and resolves after a newer quote has
replaced that object (fresh identity) is discarded without mutating the
displayed amount, which still reflects the newer quote's result. -/
theorem stale_batch_result_discarded (env : RaceEnv) (s : RaceState) (bid qid : ℕ)
    (hpend : s.pendingBatch bid = none)
    (hfresh : (env.quoteResult qid).1 ≠ s.currentResultId) :
    (raceRun env s
        [RaceEvent.batchStart bid, RaceEvent.quoteResolve qid,
         RaceEvent.batchResolve bid]).displayed
      = (env.quoteResult qid).2 ∧
    (raceRun env s
        [RaceEvent.batchStart bid, RaceEvent.quoteResolve qid,
         RaceEvent.batchResolve bid]).currentResultId
      = (env.quoteResult qid).1 := by
  simp only [raceRun, raceStep]
  by_cases hg : s.hasSwaps = true ∧ s.confirming = false
  · rw [if_pos hg]
    simp [Ne.symm hfresh]
  · rw [if_neg hg]
    simp [hpend]

/-- Witness for the amended C1 at a concrete interleaving: a batch
simulation starts against route object 3, quote 0 then installs fresh
route object 10 displaying 1, and the late batch resolution leaves the
display at 1. -/
theorem stale_batch_result_discarded_witness :
    (raceRun raceCexEnv raceQuotedSt
        [RaceEvent.batchStart 0, RaceEvent.quoteResolve 0,
         RaceEvent.batchResolve 0]).displayed
      = (raceCexEnv.quoteResult 0).2 ∧
    (raceRun raceCexEnv raceQuotedSt
        [RaceEvent.batchStart 0, RaceEvent.quoteResolve 0,
         RaceEvent.batchResolve 0]).currentResultId
      = (raceCexEnv.quoteResult 0).1 :=
  stale_batch_result_discarded raceCexEnv raceQuotedSt 0 0 rfl (by decide)

/-- Claim C7: both slippage-bounded execution limits are floor divisions
of the expected amount against `(1 + slippageBufferRate)` scaled to 18
decimals — `getMinOut` divides by it, `getMaxIn` multiplies by it — and
at amount 1000 with rate 0.01 they evaluate to 990 and 1010. -/
theorem slippage_bounds_floor_division :
    (∀ (amount : ℕ) (rate : ℚ),
      getMinOut amount rate
        = ⌊((amount * ONE : ℕ) : ℚ) / ((onePlusRateScaled rate : ℕ) : ℚ)⌋₊ ∧
      getMaxIn amount rate
        = ⌊((amount * onePlusRateScaled rate : ℕ) : ℚ) / ((ONE : ℕ) : ℚ)⌋₊) ∧
    getMinOut 1000 (1 / 100) = 990 ∧ getMaxIn 1000 (1 / 100) = 1010 := by
  refine ⟨fun amount rate => ⟨?_, ?_⟩, ?_, ?_⟩
  · rw [Nat.floor_div_nat, Nat.floor_natCast]
    rfl
  · rw [Nat.floor_div_nat, Nat.floor_natCast]
    rfl
  · have h : onePlusRateScaled (1 / 100) = 1010000000000000000 := by
      norm_num [onePlusRateScaled]
      decide
    norm_num [getMinOut, h, ONE]
  · have h : onePlusRateScaled (1 / 100) = 1010000000000000000 := by
      norm_num [onePlusRateScaled]
      decide
    norm_num [getMaxIn, h, ONE]

/-- Claim C8: when the submission performed by `trade()` — wrap, unwrap,
exact-in swap or exact-out swap — throws, the error message is recorded
in the user-visible `submissionError`, the `trading` and `confirming`
flags are both reset to idle, and exactly one submission attempt is made
(no automatic retry). -/
theorem submission_failure_resets_and_no_retry (env : TradeEnv) (wt : WrapType)
    (exactIn : Bool) (aIn aOut : ℕ) (rate : ℚ) (msg : String)
    (h : tradeOutcome env wt exactIn aIn aOut rate = Except.error msg) :
    (trade env wt exactIn aIn aOut rate).1.submissionError = some msg ∧
    (trade env wt exactIn aIn aOut rate).1.trading = false ∧
    (trade env wt exactIn aIn aOut rate).1.confirming = false ∧
    (trade env wt exactIn aIn aOut rate).2 = 1 := by
  unfold trade
  rw [h]
  exact ⟨rfl, rfl, rfl, rfl⟩

/-- Witness for C8 at a concrete failing wrap submission. -/
theorem submission_failure_resets_and_no_retry_witness :
    (trade failTradeEnv WrapType.Wrap true 5 5 (1 / 100)).1.submissionError
      = some "rejected" ∧
    (trade failTradeEnv WrapType.Wrap true 5 5 (1 / 100)).1.trading = false ∧
    (trade failTradeEnv WrapType.Wrap true 5 5 (1 / 100)).1.confirming = false ∧
    (trade failTradeEnv WrapType.Wrap true 5 5 (1 / 100)).2 = 1 :=
  submission_failure_resets_and_no_retry failTradeEnv WrapType.Wrap true 5 5 (1 / 100)
    "rejected" rfl

/-- Claim C9: under the preconditions that the (wrap-adjusted) return
amount passed as `tokenAmount` is positive and that the market spot
price parses to a positive 18-decimal fixed-point value, both
`BigNumber` divisions inside `calcPriceImpact` have nonzero divisors, so
the computation is total (no division-by-zero throw). -/
theorem calc_price_impact_divisions_safe (d : ℕ)
    (tokenAmount tokenAmountScaled : ℤ) (sp : ℚ)
    (h1 : 0 < tokenAmount) (h2 : 0 < fixed18 sp) :
    (calcPriceImpact d tokenAmount tokenAmountScaled sp).isSome = true := by
  simp [calcPriceImpact, h1.ne', h2.ne']

/-- Witness for C9 at a concrete call with unit amounts and spot price
one. -/
theorem calc_price_impact_divisions_safe_witness :
    0 < (1 : ℤ) ∧ 0 < fixed18 1 ∧
    (calcPriceImpact 18 1 1 1).isSome = true :=
  ⟨by norm_num, by norm_num [fixed18],
    calc_price_impact_divisions_safe 18 1 1 1 (by norm_num) (by norm_num [fixed18])⟩

/-- Claim C10: every `TradeQuote` built by `getQuote` reports both fee
amounts as the string `"0"`, and when the optional scaled-amount inputs
were not supplied the corresponding limits are zero. -/
theorem get_quote_fees_zero_and_default_limits (tin tout : Option ℕ) (rate : ℚ) :
    (getQuote tin tout rate).feeAmountInToken = "0" ∧
    (getQuote tin tout rate).feeAmountOutToken = "0" ∧
    (tin = none → (getQuote tin tout rate).maximumInAmount = 0) ∧
    (tout = none → (getQuote tin tout rate).minimumOutAmount = 0) := by
  refine ⟨rfl, rfl, ?_, ?_⟩ <;> rintro rfl <;> simp [getQuote]

/-- Witness for C10 with both optional scaled amounts absent. -/
theorem get_quote_fees_zero_and_default_limits_witness :
    (getQuote none none (1 / 100)).feeAmountInToken = "0" ∧
    (getQuote none none (1 / 100)).feeAmountOutToken = "0" ∧
    (none = (none : Option ℕ) → (getQuote none none (1 / 100)).maximumInAmount = 0) ∧
    (none = (none : Option ℕ) → (getQuote none none (1 / 100)).minimumOutAmount = 0) :=
  get_quote_fees_zero_and_default_limits none none (1 / 100)

end Sor
